/-
Verification of the dispatch-optimisation model in
`src/algorithms/battery_optimise.py` (repository rccolle/Battery-Optimisation).

The LP built by `battery_optimisation` is shallowly embedded: the decision
variables of the pyomo model become fields of `Assign` (one rational per
period), each constraint rule of the source becomes a predicate over an
assignment, and `Feasible` is the conjunction of exactly the constraint sets
that the source registers on the model (lines 130-135) together with the
declared variable bounds (lines 66-70).  The post-solve result extraction
(lines 142-182) is embedded as executable functions on assignments.
All numerics are exact rationals; timestamps are integers in minutes, so that
the pandas `Timedelta.days` attribute is integer floor division by 1440.
-/
import Mathlib

namespace BatteryOpt

/-- Technical constant from line 38 of the source. -/
def MIN_BATTERY_CAPACITY : ℚ := 0

/-- Technical constant from line 39 of the source. -/
def MAX_BATTERY_CAPACITY : ℚ := 10

/-- Technical constant from line 40 of the source. -/
def MAX_RAW_POWER : ℚ := 5

/-- Round-trip efficiency, line 43 of the source. -/
def EFFICIENCY : ℚ := 9 / 10

/-- Marginal loss factor, line 44 of the source. -/
def MLF : ℚ := 991 / 1000

/-- Line 46 of the source:
`HORIZON_CYCLE_LIMIT = daily_cycle_limit * ((datetime.iloc[-1] - datetime.iloc[0]).days + 1)`.
Timestamps are minutes, and the pandas `Timedelta.days` attribute floors, so it
is `Int.fdiv` by 1440 (minutes per day). -/
def HORIZON_CYCLE_LIMIT (daily_cycle_limit : ℚ) (tFirst tLast : ℤ) : ℚ :=
  daily_cycle_limit * ((Int.fdiv (tLast - tFirst) 1440 + 1 : ℤ) : ℚ)

/-- The caller-supplied data of one optimisation call: the number of periods
(the zero-based index produced at line 52), the spot/energy price series, and
the scalar parameters of `battery_optimisation`.  `tFirst` and `tLast` are the
first and last timestamps in minutes. -/
structure Inputs where
  n : ℕ
  price : ℕ → ℚ
  initial_capacity : ℚ
  cycle_cost : ℚ
  daily_cycle_limit : ℚ
  tFirst : ℤ
  tLast : ℤ

/-- One value per period for every pyomo variable of the model (lines 66-70),
plus the FCAS enablement quantities that the registered constraints reference.
The model never declares the enablement symbols as variables, so they carry no
bounds of their own. -/
structure Assign where
  Capacity : ℕ → ℚ
  Charge_power : ℕ → ℚ
  Discharge_power : ℕ → ℚ
  Cycles : ℕ → ℚ
  Cycle_cost : ℕ → ℚ
  FCAS_Raise_enablement : ℕ → ℚ
  FCAS_Lower_enablement : ℕ → ℚ

/-- Variable bounds declared at lines 66-69 of the source:
`Capacity` in `[MIN_BATTERY_CAPACITY, MAX_BATTERY_CAPACITY]`, `Charge_power`
and `Discharge_power` in `[0, MAX_RAW_POWER]`, `Cycles` in
`[0, HORIZON_CYCLE_LIMIT]`.  `Cycle_cost` is declared unbounded (line 70). -/
def varBounds (inp : Inputs) (a : Assign) (i : ℕ) : Prop :=
  MIN_BATTERY_CAPACITY ≤ a.Capacity i ∧ a.Capacity i ≤ MAX_BATTERY_CAPACITY ∧
  0 ≤ a.Charge_power i ∧ a.Charge_power i ≤ MAX_RAW_POWER ∧
  0 ≤ a.Discharge_power i ∧ a.Discharge_power i ≤ MAX_RAW_POWER ∧
  0 ≤ a.Cycles i ∧
  a.Cycles i ≤ HORIZON_CYCLE_LIMIT inp.daily_cycle_limit inp.tFirst inp.tLast

/-- Constraint rule `capacity_constraint`, lines 98-105 of the source. -/
def capacity_constraint (inp : Inputs) (a : Assign) (i : ℕ) : Prop :=
  if i = 0 then a.Capacity i = inp.initial_capacity
  else a.Capacity i = a.Capacity (i - 1)
    + a.Charge_power (i - 1) / 12 * EFFICIENCY
    - a.Discharge_power (i - 1) / 12 / EFFICIENCY

/-- Constraint rule `over_charge`, lines 81-82 of the source. -/
def over_charge (a : Assign) (i : ℕ) : Prop :=
  a.Charge_power i + a.FCAS_Lower_enablement i ≤
    (MAX_BATTERY_CAPACITY - a.Capacity i) * 12 / EFFICIENCY

/-- Constraint rule `over_discharge`, lines 85-86 of the source. -/
def over_discharge (a : Assign) (i : ℕ) : Prop :=
  a.Discharge_power i + a.FCAS_Raise_enablement i ≤ a.Capacity i * 12 * EFFICIENCY

/-- Constraint rule `negative_discharge`, lines 89-95 of the source: when the
energy price of period `i` is not positive the equality
`Discharge_power[i] = 0` is emitted, otherwise `Constraint.Skip` (embedded as
the trivially true constraint). -/
def negative_discharge (inp : Inputs) (a : Assign) (i : ℕ) : Prop :=
  if inp.price i ≤ 0 then a.Discharge_power i = 0 else True

/-- Constraint rule `cycling_constraint`, lines 108-113 of the source.  Note
that the charge and discharge powers of the CURRENT period `i` appear, unlike
the capacity recursion which uses period `i-1`. -/
def cycling_constraint (a : Assign) (i : ℕ) : Prop :=
  if i = 0 then a.Cycles i = 0
  else a.Cycles i = a.Cycles (i - 1)
    + (a.Charge_power i / 12 * EFFICIENCY
       + a.Discharge_power i / 12 / EFFICIENCY) / 2 / MAX_BATTERY_CAPACITY

/-- Constraint rule `incurred_cycle_cost`, lines 116-119 of the source. -/
def incurred_cycle_cost (inp : Inputs) (a : Assign) (i : ℕ) : Prop :=
  if i = 0 then a.Cycle_cost i = a.Cycles i * inp.cycle_cost
  else a.Cycle_cost i = inp.cycle_cost * (a.Cycles i - a.Cycles (i - 1))

/-- Rule `discharge_plus_raise_limit`, lines 123-124 of the source.  The
function is defined in the source but NEVER registered on the model: the
registration block at lines 130-137 attaches only `capacity_constraint`,
`over_charge`, `over_discharge`, `negative_discharge`, `cycling_constraint`
and `cycle_cost_incurred`. -/
def discharge_plus_raise_limit (a : Assign) (i : ℕ) : Prop :=
  a.FCAS_Raise_enablement i + a.Discharge_power i ≤ MAX_RAW_POWER

/-- Rule `charge_plus_lower_limit`, lines 126-127 of the source; likewise
defined but never registered on the model. -/
def charge_plus_lower_limit (a : Assign) (i : ℕ) : Prop :=
  a.FCAS_Lower_enablement i + a.Charge_power i ≤ MAX_RAW_POWER

/-- Feasibility for the model that `battery_optimisation` actually builds: the
variable bounds of lines 66-70 and exactly the six constraint sets registered
at lines 130-135.  The two joint-limit rules are absent because the source
never attaches them to the model. -/
def Feasible (inp : Inputs) (a : Assign) : Prop :=
  ∀ i < inp.n,
    varBounds inp a i ∧ capacity_constraint inp a i ∧ over_charge a i ∧
    over_discharge a i ∧ negative_discharge inp a i ∧ cycling_constraint a i ∧
    incurred_cycle_cost inp a i

/-- Objective rule `maximise_profit`, lines 74-78 of the source:
`rev - cost` where `rev` is the discharge revenue, and `cost` is the charge
cost plus the sum of the per-period cycle-cost variables.  No FCAS revenue
term occurs in the source objective. -/
def maximise_profit (inp : Inputs) (a : Assign) : ℚ :=
  (∑ i ∈ Finset.range inp.n, inp.price i * (a.Discharge_power i / 12) * MLF)
  - ((∑ i ∈ Finset.range inp.n, inp.price i * (a.Charge_power i / 12) / MLF)
     + ∑ i ∈ Finset.range inp.n, a.Cycle_cost i)

/-- Number of whole days from the first to the last timestamp, inclusive of
the first day: the quantity the spec calls `horizon_days`.  Stated over
minute-valued timestamps, it is the floored day difference plus one. -/
def horizon_days (tFirst tLast : ℤ) : ℤ :=
  Int.fdiv (tLast - tFirst) 1440 + 1

/-- Failure modes relevant to input handling: the index error that pandas
`iloc` raises on an empty series, and the `ConfigurationError` that the spec
describes (no such error exists anywhere in the source). -/
inductive OptErr where
  | indexError : OptErr
  | configurationError : OptErr
deriving DecidableEq

/-- The input-handling head of `battery_optimisation` (lines 46-52): the only
computation performed on the timestamps before the model is built is
`HORIZON_CYCLE_LIMIT` from `datetime.iloc[-1]` and `datetime.iloc[0]`.  On an
empty series `iloc` raises an index error; no other validation of any kind is
performed (no sortedness check, no minimum-length check, and nothing named
`ConfigurationError` appears in the source). -/
def horizonSetup (ts : List ℤ) (dcl : ℚ) : Except OptErr ℚ :=
  match ts with
  | [] => Except.error OptErr.indexError
  | t :: rest => Except.ok (HORIZON_CYCLE_LIMIT dcl t (rest.getLastD t))

/-- Columns of the returned dataframe.  `price` is the energy/spot price
column; the remaining constructors name the columns of lines 155-161 and the
derived columns of lines 169-180. -/
inductive Column where
  | price : Column
  | fcas_raise_price : Column
  | fcas_lower_price : Column
  | charge_power : Column
  | discharge_power : Column
  | fcas_raise_enablement : Column
  | fcas_lower_enablement : Column
  | opening_capacity : Column
  | cycles : Column
  | power : Column
  | revenue : Column
deriving DecidableEq

/-- Derived signed power column, lines 169-171 of the source:
`np.where(charge_power > 0, -charge_power, discharge_power)`. -/
def powerColumn (a : Assign) (p : ℕ) : ℚ :=
  if 0 < a.Charge_power p then -a.Charge_power p else a.Discharge_power p

/-- Derived revenue column, lines 178-180 of the source:
`np.where(power < 0, power * price / MLF, power * price * MLF) / 12`. -/
def revenueColumn (inp : Inputs) (a : Assign) (p : ℕ) : ℚ :=
  (if powerColumn a p < 0 then powerColumn a p * inp.price p / MLF
   else powerColumn a p * inp.price p * MLF) / 12

/-- The post-solve anomaly test of line 164: some period has nonzero charge
power and nonzero discharge power simultaneously. -/
def anomaly (inp : Inputs) (a : Assign) : Bool :=
  (List.range inp.n).any fun p =>
    decide (a.Charge_power p ≠ 0) && decide (a.Discharge_power p ≠ 0)

/-- Columns of the dataframe assembled at lines 155-161 and returned as-is on
the anomaly path (line 166). -/
def anomalyColumns : List Column :=
  [Column.price, Column.fcas_raise_price, Column.fcas_lower_price,
   Column.charge_power, Column.discharge_power,
   Column.fcas_raise_enablement, Column.fcas_lower_enablement,
   Column.opening_capacity, Column.cycles]

/-- Columns of the dataframe returned on the normal path: the selection at
line 174 plus, when revenue is requested, the revenue column of lines
177-180. -/
def normalColumns (include_revenue : Bool) : List Column :=
  [Column.price, Column.power, Column.opening_capacity, Column.cycles]
  ++ (if include_revenue then [Column.revenue] else [])

/-- Result extraction, lines 163-182 of the source: the boolean records
whether the simultaneous charge/discharge anomaly was reported (the `print`
at line 165), and the list is the column set of the returned dataframe.  Both
paths return a table; neither raises. -/
def extractResult (inp : Inputs) (a : Assign) (include_revenue : Bool) :
    Bool × List Column :=
  if anomaly inp a then (true, anomalyColumns)
  else (false, normalColumns include_revenue)

/-- Concrete two-period input: price 0 in period 0 and 60 in period 1,
timestamps five minutes apart, everything else at its defaults. -/
def inp0 : Inputs :=
  { n := 2, price := fun p => if p = 0 then 0 else 60,
    initial_capacity := 0, cycle_cost := 0, daily_cycle_limit := 1,
    tFirst := 0, tLast := 5 }

/-- The all-idle assignment: every variable 0 in every period. -/
def a0 : Assign :=
  { Capacity := fun _ => 0, Charge_power := fun _ => 0,
    Discharge_power := fun _ => 0, Cycles := fun _ => 0,
    Cycle_cost := fun _ => 0, FCAS_Raise_enablement := fun _ => 0,
    FCAS_Lower_enablement := fun _ => 0 }

/-- Concrete one-period input used to exhibit the unenforced joint limits. -/
def inpB : Inputs :=
  { n := 1, price := fun _ => 1, initial_capacity := 5, cycle_cost := 0,
    daily_cycle_limit := 2, tFirst := 0, tLast := 0 }

/-- Assignment that satisfies every registered constraint of `inpB` while its
FCAS enablements exceed the joint power limits. -/
def aB : Assign :=
  { Capacity := fun _ => 5, Charge_power := fun _ => 0,
    Discharge_power := fun _ => 0, Cycles := fun _ => 0,
    Cycle_cost := fun _ => 0, FCAS_Raise_enablement := fun _ => 6,
    FCAS_Lower_enablement := fun _ => 6 }

/-- Concrete one-period input for the anomaly path. -/
def inp1 : Inputs :=
  { n := 1, price := fun _ => 50, initial_capacity := 0, cycle_cost := 0,
    daily_cycle_limit := 1, tFirst := 0, tLast := 0 }

/-- Assignment with simultaneous nonzero charge and discharge in period 0. -/
def aAnom : Assign :=
  { Capacity := fun _ => 0, Charge_power := fun _ => 1,
    Discharge_power := fun _ => 1, Cycles := fun _ => 0,
    Cycle_cost := fun _ => 0, FCAS_Raise_enablement := fun _ => 0,
    FCAS_Lower_enablement := fun _ => 0 }

theorem feasible_inp0_a0 : Feasible inp0 a0 := by
  intro i hi
  have hf : (5 : ℤ).fdiv 1440 = 0 := by decide
  have h2 : i < 2 := hi
  interval_cases i <;>
    norm_num [varBounds, capacity_constraint, over_charge, over_discharge,
      negative_discharge, cycling_constraint, incurred_cycle_cost,
      HORIZON_CYCLE_LIMIT, MIN_BATTERY_CAPACITY, MAX_BATTERY_CAPACITY,
      MAX_RAW_POWER, EFFICIENCY, inp0, a0, hf]

theorem extractResult_fst (inp : Inputs) (a : Assign) (ir : Bool) :
    (extractResult inp a ir).1 = anomaly inp a := by
  unfold extractResult
  cases h : anomaly inp a <;> simp [h]

/-- Claim C1: every feasible point of the built model satisfies
`stored_energy[0] = initial_stored_energy` and, for `p > 0`,
`stored_energy[p] = stored_energy[p-1] + charge_power[p-1]/12 * efficiency
 - discharge_power[p-1]/12 / efficiency`. -/
theorem capacity_recursion (inp : Inputs) (a : Assign) (h : Feasible inp a) :
    (0 < inp.n → a.Capacity 0 = inp.initial_capacity) ∧
    ∀ p, 0 < p → p < inp.n →
      a.Capacity p = a.Capacity (p - 1)
        + a.Charge_power (p - 1) / 12 * EFFICIENCY
        - a.Discharge_power (p - 1) / 12 / EFFICIENCY := by
  constructor
  · intro hn
    have hc := (h 0 hn).2.1
    simpa [capacity_constraint] using hc
  · intro p hp hpn
    have hc := (h p hpn).2.1
    simpa [capacity_constraint, Nat.pos_iff_ne_zero.mp hp] using hc

theorem capacity_recursion_witness :
    a0.Capacity 0 = inp0.initial_capacity ∧
    a0.Capacity 1 = a0.Capacity 0 + a0.Charge_power 0 / 12 * EFFICIENCY
      - a0.Discharge_power 0 / 12 / EFFICIENCY :=
  ⟨(capacity_recursion inp0 a0 feasible_inp0_a0).1 (by decide),
   (capacity_recursion inp0 a0 feasible_inp0_a0).2 1 (by decide) (by decide)⟩

/-- Claim C2: the maximised objective equals the per-period sum of
`price[p] * (discharge_power[p]/12) * MLF - price[p] * (charge_power[p]/12) / MLF
 - cycle_cost_incurred[p]`; no FCAS revenue term is present. -/
theorem objective_formula (inp : Inputs) (a : Assign) :
    maximise_profit inp a =
      ∑ p ∈ Finset.range inp.n,
        (inp.price p * (a.Discharge_power p / 12) * MLF
         - inp.price p * (a.Charge_power p / 12) / MLF
         - a.Cycle_cost p) := by
  unfold maximise_profit
  rw [Finset.sum_sub_distrib, Finset.sum_sub_distrib]
  ring

/-- Claim C3: every feasible point of the built model has zero discharge power
in every period whose energy price is not positive, and for a period with
strictly positive price the `negative_discharge` rule is `Constraint.Skip`,
i.e. it holds of every assignment whatsoever and so imposes nothing. -/
theorem discharge_suppression (inp : Inputs) (a : Assign) (h : Feasible inp a) :
    (∀ p, p < inp.n → inp.price p ≤ 0 → a.Discharge_power p = 0) ∧
    (∀ (b : Assign) (p : ℕ), 0 < inp.price p → negative_discharge inp b p) := by
  constructor
  · intro p hp hneg
    have hc := (h p hp).2.2.2.2.1
    simpa [negative_discharge, if_pos hneg] using hc
  · intro b p hpos
    unfold negative_discharge
    rw [if_neg (not_le.mpr hpos)]
    trivial

theorem discharge_suppression_witness :
    a0.Discharge_power 0 = 0 ∧ negative_discharge inp0 a0 1 :=
  ⟨(discharge_suppression inp0 a0 feasible_inp0_a0).1 0 (by norm_num [inp0])
      (by norm_num [inp0]),
   (discharge_suppression inp0 a0 feasible_inp0_a0).2 a0 1 (by norm_num [inp0])⟩

/-- Claim C4: every feasible point of the built model satisfies `cycles[0] = 0`
(the code carries nothing over from a prior horizon) and, for `p > 0`,
`cycles[p] = cycles[p-1] + (charge_power[p]/12 * efficiency
 + discharge_power[p]/12 / efficiency) / (2 * max_capacity)`; since the power
variables are bounded below by 0, `cycles` is monotone nondecreasing. -/
theorem cycling_accumulation (inp : Inputs) (a : Assign) (h : Feasible inp a) :
    (0 < inp.n → a.Cycles 0 = 0) ∧
    (∀ p, 0 < p → p < inp.n →
      a.Cycles p = a.Cycles (p - 1)
        + (a.Charge_power p / 12 * EFFICIENCY
           + a.Discharge_power p / 12 / EFFICIENCY) / (2 * MAX_BATTERY_CAPACITY)) ∧
    (∀ p, 0 < p → p < inp.n → a.Cycles (p - 1) ≤ a.Cycles p) := by
  have key : ∀ p, 0 < p → p < inp.n →
      a.Cycles p = a.Cycles (p - 1)
        + (a.Charge_power p / 12 * EFFICIENCY
           + a.Discharge_power p / 12 / EFFICIENCY) / (2 * MAX_BATTERY_CAPACITY) := by
    intro p hp hpn
    have hc := (h p hpn).2.2.2.2.2.1
    simp only [cycling_constraint, if_neg (Nat.pos_iff_ne_zero.mp hp)] at hc
    rw [hc, div_div]
  refine ⟨?_, key, ?_⟩
  · intro hn
    have hc := (h 0 hn).2.2.2.2.2.1
    simpa [cycling_constraint] using hc
  · intro p hp hpn
    have hb := (h p hpn).1
    have hch : 0 ≤ a.Charge_power p := hb.2.2.1
    have hdi : 0 ≤ a.Discharge_power p := hb.2.2.2.2.1
    have h1 : 0 ≤ a.Charge_power p / 12 * EFFICIENCY :=
      mul_nonneg (div_nonneg hch (by norm_num)) (by norm_num [EFFICIENCY])
    have h2 : 0 ≤ a.Discharge_power p / 12 / EFFICIENCY :=
      div_nonneg (div_nonneg hdi (by norm_num)) (by norm_num [EFFICIENCY])
    have h3 : 0 ≤ (a.Charge_power p / 12 * EFFICIENCY
        + a.Discharge_power p / 12 / EFFICIENCY) / (2 * MAX_BATTERY_CAPACITY) :=
      div_nonneg (add_nonneg h1 h2) (by norm_num [MAX_BATTERY_CAPACITY])
    have hk := key p hp hpn
    linarith [hk, h3]

theorem cycling_accumulation_witness :
    a0.Cycles 0 = 0 ∧
    a0.Cycles 1 = a0.Cycles 0
      + (a0.Charge_power 1 / 12 * EFFICIENCY
         + a0.Discharge_power 1 / 12 / EFFICIENCY) / (2 * MAX_BATTERY_CAPACITY) ∧
    a0.Cycles 0 ≤ a0.Cycles 1 :=
  ⟨(cycling_accumulation inp0 a0 feasible_inp0_a0).1 (by norm_num [inp0]),
   (cycling_accumulation inp0 a0 feasible_inp0_a0).2.1 1 (by norm_num)
      (by norm_num [inp0]),
   (cycling_accumulation inp0 a0 feasible_inp0_a0).2.2 1 (by norm_num)
      (by norm_num [inp0])⟩

/-- Claim C5: the upper bound of every `Cycles` variable is
`HORIZON_CYCLE_LIMIT`, and it equals `daily_cycle_limit` times the ceiling of
`horizon_days`, the whole-day span of the timestamps inclusive of the first
day (the ceiling of an integer count being that count itself). -/
theorem horizon_cycle_limit_correct (inp : Inputs) (a : Assign) :
    HORIZON_CYCLE_LIMIT inp.daily_cycle_limit inp.tFirst inp.tLast
      = inp.daily_cycle_limit
        * ((⌈((horizon_days inp.tFirst inp.tLast : ℤ) : ℚ)⌉ : ℤ) : ℚ) ∧
    (Feasible inp a → ∀ p, p < inp.n →
      a.Cycles p ≤ HORIZON_CYCLE_LIMIT inp.daily_cycle_limit inp.tFirst inp.tLast) := by
  constructor
  · unfold HORIZON_CYCLE_LIMIT horizon_days
    rw [Int.ceil_intCast]
  · intro hF p hp
    exact (hF p hp).1.2.2.2.2.2.2.2

theorem horizon_cycle_limit_correct_witness :
    a0.Cycles 0 ≤ HORIZON_CYCLE_LIMIT inp0.daily_cycle_limit inp0.tFirst inp0.tLast :=
  (horizon_cycle_limit_correct inp0 a0).2 feasible_inp0_a0 0 (by norm_num [inp0])

/-- Claim C6 (code bug): the joint-limit rules are defined in the source but
never registered on the model, so the built model does not enforce them: the
assignment `aB` satisfies every registered constraint of the model built from
`inpB` while violating both joint power limits in period 0. -/
theorem joint_limits_not_enforced :
    Feasible inpB aB ∧ ¬ discharge_plus_raise_limit aB 0 ∧
    ¬ charge_plus_lower_limit aB 0 := by
  refine ⟨?_, ?_, ?_⟩
  · intro i hi
    have hf : (0 : ℤ).fdiv 1440 = 0 := by decide
    have h1 : i < 1 := hi
    interval_cases i
    norm_num [varBounds, capacity_constraint, over_charge, over_discharge,
      negative_discharge, cycling_constraint, incurred_cycle_cost,
      HORIZON_CYCLE_LIMIT, MIN_BATTERY_CAPACITY, MAX_BATTERY_CAPACITY,
      MAX_RAW_POWER, EFFICIENCY, inpB, aB, hf]
  · norm_num [discharge_plus_raise_limit, MAX_RAW_POWER, aB]
  · norm_num [charge_plus_lower_limit, MAX_RAW_POWER, aB]

/-- Claim C7 (counterexample): a single-point timestamp sequence and an
unsorted two-point sequence are both accepted by the input handling of
`battery_optimisation`; no `ConfigurationError` is raised. -/
theorem no_validation_counterexample :
    horizonSetup [(0 : ℤ)] 2 = Except.ok 2 ∧
    horizonSetup [(1440 : ℤ), 0] 2 = Except.ok 0 := by
  have h1 : ((0 : ℤ) - 0).fdiv 1440 = 0 := by decide
  have h2 : (-1440 : ℤ).fdiv 1440 = -1 := by decide
  constructor
  · norm_num [horizonSetup, HORIZON_CYCLE_LIMIT, List.getLastD, h1]
  · norm_num [horizonSetup, HORIZON_CYCLE_LIMIT, List.getLastD, h2]

/-- Claim C7 (amended): the input handling of `battery_optimisation` performs
no validation at all: it fails exactly on the empty timestamp sequence, and
that failure is the index error of `iloc`, never a `ConfigurationError`;
every nonempty sequence, sorted or not, of any length, proceeds to the
solve. -/
theorem horizonSetup_no_validation (ts : List ℤ) (dcl : ℚ) :
    ((∃ e, horizonSetup ts dcl = Except.error e) ↔ ts = []) ∧
    (∀ e, horizonSetup ts dcl = Except.error e → e = OptErr.indexError) := by
  cases ts with
  | nil =>
    refine ⟨⟨fun _ => rfl, fun _ => ⟨OptErr.indexError, rfl⟩⟩, ?_⟩
    intro e he
    exact (Except.error.inj he).symm
  | cons t rest =>
    refine ⟨⟨fun ⟨e, he⟩ => ?_, fun hh => ?_⟩, fun e he => ?_⟩
    · exact absurd he (by simp [horizonSetup])
    · exact absurd hh (by simp)
    · exact absurd he (by simp [horizonSetup])

theorem horizonSetup_no_validation_witness :
    horizonSetup ([] : List ℤ) 2 = Except.error OptErr.indexError := by
  obtain ⟨e, he⟩ := (horizonSetup_no_validation ([] : List ℤ) 2).1.mpr rfl
  have h2 := (horizonSetup_no_validation ([] : List ℤ) 2).2 e he
  rwa [h2] at he

/-- Claim C8: on the non-anomalous path the returned table has the derived
power and revenue columns, the power value is `-charge_power[p]` when
`charge_power[p] > 0` and `discharge_power[p]` otherwise, and the revenue
value is `power * price / MLF / 12` when the power is negative and
`power * price * MLF / 12` otherwise. -/
theorem power_revenue_columns (inp : Inputs) (a : Assign) (p : ℕ)
    (h : anomaly inp a = false) :
    Column.power ∈ (extractResult inp a true).2 ∧
    Column.revenue ∈ (extractResult inp a true).2 ∧
    powerColumn a p =
      (if 0 < a.Charge_power p then -a.Charge_power p else a.Discharge_power p) ∧
    revenueColumn inp a p =
      (if powerColumn a p < 0 then powerColumn a p * inp.price p / MLF / 12
       else powerColumn a p * inp.price p * MLF / 12) := by
  have he : extractResult inp a true = (false, normalColumns true) := by
    simp [extractResult, h]
  refine ⟨?_, ?_, rfl, ?_⟩
  · rw [he]; decide
  · rw [he]; decide
  · unfold revenueColumn
    split <;> ring

theorem power_revenue_columns_witness :
    Column.power ∈ (extractResult inp0 a0 true).2 ∧
    Column.revenue ∈ (extractResult inp0 a0 true).2 ∧
    powerColumn a0 0 =
      (if 0 < a0.Charge_power 0 then -a0.Charge_power 0 else a0.Discharge_power 0) ∧
    revenueColumn inp0 a0 0 =
      (if powerColumn a0 0 < 0 then powerColumn a0 0 * inp0.price 0 / MLF / 12
       else powerColumn a0 0 * inp0.price 0 * MLF / 12) :=
  power_revenue_columns inp0 a0 0 (by decide)

/-- Claim C9: the extractor reports the simultaneous charge/discharge anomaly
exactly when some period has nonzero charge power and nonzero discharge power
at once, and in either case it returns a (nonempty) result table; it never
raises. -/
theorem anomaly_reporting (inp : Inputs) (a : Assign) (ir : Bool) :
    ((extractResult inp a ir).1 = true ↔
      ∃ p, p < inp.n ∧ a.Charge_power p ≠ 0 ∧ a.Discharge_power p ≠ 0) ∧
    0 < (extractResult inp a ir).2.length := by
  constructor
  · rw [extractResult_fst]
    simp [anomaly, List.any_eq_true, List.mem_range]
  · cases h : anomaly inp a
    · cases ir <;> simp [extractResult, h, normalColumns]
    · simp [extractResult, h, anomalyColumns]

theorem anomaly_reporting_witness :
    0 < (extractResult inp0 a0 true).2.length :=
  (anomaly_reporting inp0 a0 true).2

/-- Claim C10: the table returned on the anomaly path carries the raw
charge/discharge powers, the three price columns, the FCAS enablements,
the opening capacity and the cycles, but neither the derived power column nor
the revenue column; the normal path instead drops the raw powers and returns
price, power, opening capacity and cycles, plus revenue when requested. -/
theorem result_column_sets (inp : Inputs) (a : Assign) (ir : Bool) :
    ((extractResult inp a ir).1 = true →
      (extractResult inp a ir).2 = anomalyColumns ∧
      Column.power ∉ (extractResult inp a ir).2 ∧
      Column.revenue ∉ (extractResult inp a ir).2 ∧
      Column.charge_power ∈ (extractResult inp a ir).2 ∧
      Column.discharge_power ∈ (extractResult inp a ir).2 ∧
      Column.opening_capacity ∈ (extractResult inp a ir).2 ∧
      Column.cycles ∈ (extractResult inp a ir).2) ∧
    ((extractResult inp a ir).1 = false →
      (extractResult inp a ir).2 =
        [Column.price, Column.power, Column.opening_capacity, Column.cycles]
          ++ (if ir then [Column.revenue] else []) ∧
      Column.charge_power ∉ (extractResult inp a ir).2 ∧
      Column.discharge_power ∉ (extractResult inp a ir).2) := by
  cases h : anomaly inp a
  · have he : extractResult inp a ir = (false, normalColumns ir) := by
      simp [extractResult, h]
    rw [he]
    refine ⟨fun ht => absurd ht (by simp), fun _ => ?_⟩
    cases ir <;> exact (by decide)
  · have he : extractResult inp a ir = (true, anomalyColumns) := by
      simp [extractResult, h]
    rw [he]
    refine ⟨fun _ => (by decide), fun hf => absurd hf (by simp)⟩

theorem result_column_sets_witness :
    (extractResult inp1 aAnom true).2 = anomalyColumns ∧
    Column.charge_power ∉ (extractResult inp0 a0 true).2 :=
  ⟨((result_column_sets inp1 aAnom true).1 (by decide)).1,
   ((result_column_sets inp0 a0 true).2 (by decide)).2.1⟩

end BatteryOpt
